import Mathlib

/-!
Shallow embedding of the APBA mod-controller driver (src/apba.c) and proofs
about its power/flash sequencing, message protocol handling, log buffer and
interrupt dispatch.  Side effects of the C code (gpio writes, delays, uart
calls, mtd operations, slave power commands, completion signalling) are made
observable as an `Action` trace; controller-visible state is carried in a
`Ctrl` record.  External collaborator results (mtd lookup/read/erase/write,
kmalloc, clock, pinctrl) are supplied by environment records.
-/

namespace Apba

/-! ### Constants from src/apba.c -/

def APBA_NUM_GPIOS : Nat := 8

def APBA_MAX_SEQ : Nat := APBA_NUM_GPIOS * 3 * 2

def APBE_RESET_DELAY : Nat := 250

/-- APBA_LOG_SIZE is SZ_16K. -/
def APBA_LOG_SIZE : Nat := 16384

/-- Kernel page size on this platform; apba_compare_partition reads and
compares exactly one page. -/
def PAGE_SIZE : Nat := 4096

def APBA_LOG_REQ_TIMEOUT : Nat := 1000

def APBA_MODE_REQ_TIMEOUT : Nat := 1000

def APBA_BAUD_REQ_TIMEOUT : Nat := 1000

/-- Linux errno values used by apba.c (returned negated). -/
def EIO_errno : Int := 5

def EAGAIN : Int := 11

def ENODEV : Int := 19

def EINVAL : Int := 22

/-- Modelled from the spec: the APBA_CTRL_* message-type codes live in apba.h,
which is not part of src/; the spec (section 6 and 4.3) fixes the set of
message kinds but not their numeric values, so distinct representative values
are chosen here.  No claim depends on the particular numbers. -/
def APBA_CTRL_INT_REASON : Nat := 1

def APBA_CTRL_PM_WAKE_ACK : Nat := 2

def APBA_CTRL_PM_SLEEP_ACK : Nat := 3

def APBA_CTRL_PM_SLEEP_IND : Nat := 4

def APBA_CTRL_LOG_IND : Nat := 5

def APBA_CTRL_LOG_REQUEST : Nat := 6

def APBA_CTRL_BAUD_ACK : Nat := 7

def APBA_CTRL_MODE_REQUEST : Nat := 8

def APBA_CTRL_BAUD_REQUEST : Nat := 9

/-- Modelled from the spec: struct apba_ctrl_msg_hdr is declared in apba.h
(not in src/); the spec section 6 gives the wire header as
`{ type: u16, size: u16 }`, four bytes, little-endian. -/
def APBA_CTRL_MSG_HDR_SIZE : Nat := 4

/-- Modelled from the spec: MB_CONTROL_SLAVE_MASK_APBE comes from the mods
headers (not in src/); it is an opaque device mask carried verbatim into
slave power commands, so its value is immaterial. -/
def MB_CONTROL_SLAVE_MASK_APBE : Nat := 1

/-- Interrupt reason codes, from the anonymous enum in src/apba.c. -/
def APBA_INT_REASON_NONE : Nat := 0

def APBA_INT_APBE_ON : Nat := 1

def APBA_INT_APBE_RESET : Nat := 2

def APBA_INT_APBE_CONNECTED : Nat := 3

def APBA_INT_APBE_DISCONNECTED : Nat := 4

/-! ### Observable actions -/

/-- The six named GPIO sequences owned by the controller. -/
inductive SeqKind where
  | enable
  | disable
  | wakeAssert
  | wakeDeassert
  | flashStart
  | flashEnd
deriving DecidableEq, Repr

/-- The three single-slot completions. -/
inductive CompKind where
  | log
  | baud
  | mode
deriving DecidableEq, Repr

/-- One observable side effect of the driver. -/
inductive Action where
  | gpioSet (gpio : Int) (value : Nat)
  | sleep (ms : Nat)
  | runSeq (k : SeqKind)
  | extBusVote (b : Bool)
  | uartOpen
  | uartClose
  | uartPmOn (b : Bool)
  | pinctrlActive
  | pinctrlDefault
  | mucRegisterSpiFlash
  | mucDeregisterSpiFlash
  | populateTransports
  | depopulateTransports
  | mtdRead (start count : Nat)
  | mtdErase (start count : Nat)
  | mtdWrite (start count : Nat)
  | slavePower (intf : Nat) (powerOn : Bool) (mask : Nat)
  | attachNotify (present : Nat)
  | uartPmEvent (t : Nat)
  | uartSend (msgType : Nat) (payload : List Nat)
  | uartUpdateBaud (baud : Nat)
  | uartLockTx (b : Bool)
  | complete (k : CompKind)
  | clkDisable
deriving DecidableEq, Repr

/-! ### GPIO sequencer (apba_seq) -/

/-- gpio_is_valid from linux/gpio.h: nonnegative and below ARCH_NR_GPIOS. -/
def gpio_is_valid (g : Int) : Bool := 0 ≤ g && g < 512

/-- struct apba_seq: a u32 array together with its entry count; entries are
consumed three at a time as (pin-index, value, delay) triples. -/
structure ApbaSeq where
  val : Nat → Nat
  len : Nat

/-- Body of the for-loop of apba_seq in src/apba.c, iterating i over
0, 3, 6, ... below s.len.  `gpios` models ctrl->gpios (array of 8 slots). -/
def apba_seq_go (gpios : Nat → Int) (s : ApbaSeq) (i : Nat) : List Action :=
  if _h : i < s.len then
    (let index := s.val i
     let value := s.val (i+1)
     let delay := s.val (i+2)
     ((if index < APBA_NUM_GPIOS then
         (if gpio_is_valid (gpios index) then
            [Action.gpioSet (gpios index) value]
          else [])
       else []) ++
      (if delay ≠ 0 then [Action.sleep delay] else [])))
    ++ apba_seq_go gpios s (i+3)
  else []
termination_by s.len - i
decreasing_by omega

/-- apba_seq from src/apba.c. -/
def apba_seq (gpios : Nat → Int) (s : ApbaSeq) : List Action :=
  apba_seq_go gpios s 0

/-- Flat array view of a list of (pin-index, value, delay) triples, as the
device tree loads them into apba_seq.val. -/
def tripleVal (ts : List (Nat × Nat × Nat)) (i : Nat) : Nat :=
  match ts.get? (i / 3) with
  | none => 0
  | some (a, b, c) => if i % 3 = 0 then a else if i % 3 = 1 then b else c

/-- An apba_seq whose array holds exactly the given triples. -/
def seqOfTriples (ts : List (Nat × Nat × Nat)) : ApbaSeq :=
  ⟨tripleVal ts, 3 * ts.length⟩

/-- Reference semantics of a single (pin-index, value, delay) triple:
write the pin if the index is in range and the gpio is valid, then delay. -/
def tripleStep (gpios : Nat → Int) : Nat × Nat × Nat → List Action
  | (index, value, delay) =>
    (if index < APBA_NUM_GPIOS then
       (if gpio_is_valid (gpios index) then
          [Action.gpioSet (gpios index) value]
        else [])
     else []) ++
    (if delay ≠ 0 then [Action.sleep delay] else [])

theorem apba_seq_go_stop (gpios : Nat → Int) (s : ApbaSeq) (i : Nat)
    (h : ¬ i < s.len) : apba_seq_go gpios s i = [] := by
  rw [apba_seq_go]
  simp [h]

theorem apba_seq_go_step (gpios : Nat → Int) (s : ApbaSeq) (i : Nat)
    (h : i < s.len) :
    apba_seq_go gpios s i =
      ((if s.val i < APBA_NUM_GPIOS then
          (if gpio_is_valid (gpios (s.val i)) then
             [Action.gpioSet (gpios (s.val i)) (s.val (i+1))]
           else [])
        else []) ++
       (if s.val (i+2) ≠ 0 then [Action.sleep (s.val (i+2))] else []))
      ++ apba_seq_go gpios s (i+3) := by
  conv_lhs => rw [apba_seq_go]
  simp [h]

/-- Shifting the value array by one triple shifts the loop start by 3. -/
theorem apba_seq_go_shift (gpios : Nat → Int) (v : Nat → Nat) (n : Nat) :
    ∀ (m j : Nat), n - j ≤ m →
      apba_seq_go gpios ⟨v, n + 3⟩ (j + 3)
        = apba_seq_go gpios ⟨fun i => v (i + 3), n⟩ j := by
  intro m
  induction m with
  | zero =>
      intro j hj
      have h1 : ¬ (j + 3 < (⟨v, n + 3⟩ : ApbaSeq).len) := by simp; omega
      have h2 : ¬ (j < (⟨fun i => v (i + 3), n⟩ : ApbaSeq).len) := by
        simp; omega
      rw [apba_seq_go_stop _ _ _ h1, apba_seq_go_stop _ _ _ h2]
  | succ m ih =>
      intro j hj
      by_cases h : j < n
      · have h1 : j + 3 < (⟨v, n + 3⟩ : ApbaSeq).len := by simp; omega
        have h2 : j < (⟨fun i => v (i + 3), n⟩ : ApbaSeq).len := by simp; omega
        rw [apba_seq_go_step _ _ _ h1, apba_seq_go_step _ _ _ h2]
        have hrec := ih (j + 3) (by omega)
        simp only at hrec ⊢
        rw [hrec]
      · have h1 : ¬ (j + 3 < (⟨v, n + 3⟩ : ApbaSeq).len) := by simp; omega
        have h2 : ¬ (j < (⟨fun i => v (i + 3), n⟩ : ApbaSeq).len) := by
          simp; omega
        rw [apba_seq_go_stop _ _ _ h1, apba_seq_go_stop _ _ _ h2]

theorem tripleVal_shift (t : Nat × Nat × Nat) (ts : List (Nat × Nat × Nat)) :
    (fun i => tripleVal (t :: ts) (i + 3)) = tripleVal ts := by
  funext i
  have hdiv : (i + 3) / 3 = i / 3 + 1 := by omega
  have hmod : (i + 3) % 3 = i % 3 := by omega
  simp [tripleVal, hdiv, hmod]

/-- The sequencer on a triple table is exactly the in-order concatenation of
the per-triple reference semantics. -/
theorem apba_seq_eq_flatMap (gpios : Nat → Int) (ts : List (Nat × Nat × Nat)) :
    apba_seq gpios (seqOfTriples ts) = ts.flatMap (tripleStep gpios) := by
  induction ts with
  | nil =>
      rw [apba_seq, apba_seq_go_stop]
      · rfl
      · simp [seqOfTriples]
  | cons t ts ih =>
      obtain ⟨a, b, c⟩ := t
      rw [apba_seq, seqOfTriples]
      rw [apba_seq_go_step _ _ _ (by simp)]
      have hv0 : tripleVal ((a, b, c) :: ts) 0 = a := by simp [tripleVal]
      have hv1 : tripleVal ((a, b, c) :: ts) 1 = b := by simp [tripleVal]
      have hv2 : tripleVal ((a, b, c) :: ts) 2 = c := by simp [tripleVal]
      have hlen3 : 3 * ((a, b, c) :: ts).length = 3 * ts.length + 3 := by
        simp [List.length_cons]; ring
      have hshift :
          apba_seq_go gpios ⟨tripleVal ((a, b, c) :: ts), 3 * ts.length + 3⟩ 3
            = apba_seq_go gpios ⟨tripleVal ts, 3 * ts.length⟩ 0 := by
        have := apba_seq_go_shift gpios (tripleVal ((a, b, c) :: ts))
          (3 * ts.length) (3 * ts.length) 0 (by omega)
        simpa [tripleVal_shift] using this
      simp only [hv0, hv1, hv2]
      rw [show (⟨tripleVal ((a, b, c) :: ts), 3 * ((a, b, c) :: ts).length⟩ :
            ApbaSeq)
          = ⟨tripleVal ((a, b, c) :: ts), 3 * ts.length + 3⟩ by rw [hlen3]]
      rw [show (0 + 3 : Nat) = 3 by rfl]
      rw [hshift]
      rw [apba_seq] at ih
      rw [seqOfTriples] at ih
      rw [ih]
      simp [tripleStep]

/-- C6: runSequence visits triples in their original order, and a triple with
an out-of-range pin index contributes no pin write (only its delay), execution
continuing with the remaining triples. -/
theorem c6_seq_order_skip (gpios : Nat → Int) (ts : List (Nat × Nat × Nat))
    (index value delay : Nat) (h : APBA_NUM_GPIOS ≤ index) :
    apba_seq gpios (seqOfTriples ts) = ts.flatMap (tripleStep gpios) ∧
    tripleStep gpios (index, value, delay)
      = (if delay ≠ 0 then [Action.sleep delay] else []) := by
  refine ⟨apba_seq_eq_flatMap gpios ts, ?_⟩
  have hlt : ¬ index < APBA_NUM_GPIOS := by omega
  simp [tripleStep, hlt]

/-- Concrete run of c6_seq_order_skip: a three-triple sequence whose middle
triple has pin index 9 (out of range for the 8-slot array). -/
theorem c6_seq_order_skip_witness :
    apba_seq (fun i => (i : Int))
        (seqOfTriples [(1, 1, 0), (9, 1, 5), (2, 0, 10)])
      = [(1, 1, 0), (9, 1, 5), (2, 0, 10)].flatMap
          (tripleStep (fun i => (i : Int))) ∧
    tripleStep (fun i => (i : Int)) (9, 1, 5) = [Action.sleep 5] := by
  have h := c6_seq_order_skip (fun i => (i : Int))
    [(1, 1, 0), (9, 1, 5), (2, 0, 10)] 9 1 5 (by decide)
  exact ⟨h.1, by simpa using h.2⟩

/-! ### Controller state (struct apba_ctrl)

`powered` and `flashOn` are the abstract power / flash-electrical states the
claims of the spec talk about: `powered` records the polarity of the most recent
`apba_on` call, `flashOn` that of the most recent `apba_flash_on` call.  The
remaining fields are literal struct apba_ctrl fields (desired_on, mode,
flash_dev_populated, master_intf, mods_uart as an attached flag) plus the
kfifo log buffer and the collaborator-held uart baud rate. -/

structure Ctrl where
  desired_on : Bool
  powered : Bool
  flashOn : Bool
  mode : Nat
  flash_dev_populated : Bool
  master_intf : Nat
  uartAttached : Bool
  uartBaud : Nat
  logFifo : List Nat
deriving DecidableEq, Repr

/-- apba_on from src/apba.c.  The embedded apba_seq runs are abstracted as
runSeq actions since they do not touch controller state. -/
def apba_on (s : Ctrl) (b : Bool) : Ctrl × List Action :=
  if b then
    ({s with powered := true},
     [Action.extBusVote true]
       ++ (if s.uartAttached then [Action.uartOpen] else [])
       ++ [Action.runSeq SeqKind.enable]
       ++ (if s.uartAttached then [Action.uartPmOn true] else []))
  else
    ({s with powered := false, mode := 0},
     [Action.extBusVote false, Action.runSeq SeqKind.disable]
       ++ (if s.uartAttached then [Action.uartPmOn false, Action.uartClose]
           else []))

/-- apba_flash_on from src/apba.c; pinctrlActiveOk models whether the
optional spi_active pinctrl state was found, populateOk whether
populate_transports_node managed to create the platform device. -/
def apba_flash_on (s : Ctrl) (b : Bool) (pinctrlActiveOk populateOk : Bool) :
    Ctrl × List Action :=
  if b then
    ({s with flashOn := true,
             flash_dev_populated :=
               if populateOk then true else s.flash_dev_populated},
     (if pinctrlActiveOk then [Action.pinctrlActive] else [])
       ++ [Action.runSeq SeqKind.flashStart, Action.mucRegisterSpiFlash,
           Action.populateTransports])
  else
    ({s with flashOn := false, flash_dev_populated := false},
     (if s.flash_dev_populated then [Action.depopulateTransports] else [])
       ++ [Action.runSeq SeqKind.flashEnd, Action.mucDeregisterSpiFlash,
           Action.pinctrlDefault])

/-! ### Firmware flash pipeline -/

/-- struct firmware: `data` is the byte memory starting at fw->data, of which
only the first `size` bytes belong to the image; indices at or beyond `size`
are out-of-bounds memory. -/
structure Firmware where
  size : Nat
  data : Nat → Nat

/-- The slice of struct mtd_info that apba.c uses. -/
structure MtdInfo where
  size : Nat
deriving DecidableEq, Repr

/-- Collaborator outcomes consumed by one erase/flash operation: the mtd
lookup by partition name, the page-buffer kmalloc, the mtd _read result
(return value, retlen, and bytes delivered), the _erase and _write results,
and the two flash-mode environment bits. -/
structure FlashEnv where
  mtdFound : Option MtdInfo
  kmallocOk : Bool
  readRet : Int
  readRetlen : Nat
  partContent : Nat → Nat
  eraseRet : Int
  writeRet : Int
  pinctrlActiveOk : Bool
  populateOk : Bool

/-- Index of the first position in [i, i+fuel) where a and b differ; the C
memcmp examines bytes up to and including that position. -/
def firstDiffFrom (a b : Nat → Nat) : Nat → Nat → Option Nat
  | _, 0 => none
  | i, fuel+1 =>
    if a i = b i then firstDiffFrom a b (i+1) fuel else some i

/-- memcmp(a, b, n) result sign. -/
def memcmpN (a b : Nat → Nat) (n : Nat) : Int :=
  match firstDiffFrom a b 0 n with
  | none => 0
  | some i => if a i < b i then -1 else 1

/-- Number of bytes of each operand that memcmp(a, b, n) examines. -/
def memcmpReads (a b : Nat → Nat) (n : Nat) : Nat :=
  match firstDiffFrom a b 0 n with
  | none => n
  | some i => i + 1

/-- Result of apba_compare_partition: the compare result (0 means match,
nonzero means flash), how many bytes of fw->data were examined, and the mtd
actions performed. -/
structure CompareOut where
  result : Int
  fwReads : Nat
  actions : List Action

/-- apba_compare_partition from src/apba.c: kmalloc a page, read one page of
the partition, and memcmp it against fw->data over a full PAGE_SIZE
regardless of fw->size; any failure yields the assumed-different result 1. -/
def apba_compare_partition (env : FlashEnv) (fw : Firmware) : CompareOut :=
  if ¬ env.kmallocOk then ⟨1, 0, []⟩
  else if env.readRet < 0 then ⟨1, 0, [Action.mtdRead 0 PAGE_SIZE]⟩
  else if env.readRetlen < PAGE_SIZE then ⟨1, 0, [Action.mtdRead 0 PAGE_SIZE]⟩
  else ⟨memcmpN env.partContent fw.data PAGE_SIZE,
        memcmpReads env.partContent fw.data PAGE_SIZE,
        [Action.mtdRead 0 PAGE_SIZE]⟩

/-- Result of an erase/flash operation. -/
structure FlashResult where
  err : Int
  ctrl : Ctrl
  actions : List Action

/-- The shared cleanup / no_mtd tail of apba_erase_partition and
apba_flash_partition: exit flash mode, then power the APBA back on exactly
when desired_on is set, preserving err. -/
def flashFinish (s : Ctrl) (e : Int) (pre : List Action) : FlashResult :=
  let q1 := apba_flash_on s false false false
  let q2 := if q1.1.desired_on then apba_on q1.1 true else (q1.1, [])
  ⟨e, q2.1, pre ++ q1.2 ++ q2.2⟩

/-- apba_flash_partition from src/apba.c. -/
def apba_flash_partition (s : Ctrl) (env : FlashEnv)
    (fwOpt : Option Firmware) : FlashResult :=
  match fwOpt with
  | none => ⟨-EINVAL, s, []⟩
  | some fw =>
    let s1 := (apba_on s false).1
    let a1 := (apba_on s false).2
    let s2 := (apba_flash_on s1 true env.pinctrlActiveOk env.populateOk).1
    let a2 := (apba_flash_on s1 true env.pinctrlActiveOk env.populateOk).2
    match env.mtdFound with
    | none => flashFinish s2 (-ENODEV) (a1 ++ a2)
    | some mtd =>
      let c := apba_compare_partition env fw
      if c.result = 0 then
        flashFinish s2 0 (a1 ++ a2 ++ c.actions)
      else if env.eraseRet < 0 then
        flashFinish s2 env.eraseRet
          (a1 ++ a2 ++ c.actions ++ [Action.mtdErase 0 mtd.size])
      else
        flashFinish s2 env.writeRet
          (a1 ++ a2 ++ c.actions
            ++ [Action.mtdErase 0 mtd.size, Action.mtdWrite 0 fw.size])

/-- apba_erase_partition from src/apba.c. -/
def apba_erase_partition (s : Ctrl) (env : FlashEnv) : FlashResult :=
  let s1 := (apba_on s false).1
  let a1 := (apba_on s false).2
  let s2 := (apba_flash_on s1 true env.pinctrlActiveOk env.populateOk).1
  let a2 := (apba_flash_on s1 true env.pinctrlActiveOk env.populateOk).2
  match env.mtdFound with
  | none => flashFinish s2 (-ENODEV) (a1 ++ a2)
  | some mtd =>
    flashFinish s2 env.eraseRet (a1 ++ a2 ++ [Action.mtdErase 0 mtd.size])

def Action.isErase : Action → Bool
  | .mtdErase _ _ => true
  | _ => false

def Action.isWrite : Action → Bool
  | .mtdWrite _ _ => true
  | _ => false

/-- Number of mtd erase calls in a trace. -/
def countErase (l : List Action) : Nat := (l.filter Action.isErase).length

/-- Number of mtd write calls in a trace. -/
def countWrite (l : List Action) : Nat := (l.filter Action.isWrite).length

theorem flashFinish_state (s : Ctrl) (e : Int) (pre : List Action)
    (hp : s.powered = false) :
    (flashFinish s e pre).ctrl.powered = s.desired_on ∧
    (flashFinish s e pre).ctrl.flashOn = false ∧
    (flashFinish s e pre).ctrl.desired_on = s.desired_on ∧
    (flashFinish s e pre).err = e := by
  cases h : s.desired_on <;>
    simp [flashFinish, apba_flash_on, apba_on, h, hp]

theorem flashFinish_restore (s : Ctrl) (d : Bool) (e : Int)
    (pre : List Action) (hp : s.powered = false) (hd : s.desired_on = d) :
    (flashFinish s e pre).ctrl.powered = d ∧
    (flashFinish s e pre).ctrl.flashOn = false ∧
    (flashFinish s e pre).ctrl.desired_on = d := by
  have h := flashFinish_state s e pre hp
  exact ⟨hd ▸ h.1, h.2.1, hd ▸ h.2.2.1⟩

theorem flash_prep_state (s : Ctrl) (p q : Bool) :
    ((apba_flash_on ((apba_on s false).1) true p q).1).desired_on
        = s.desired_on ∧
    ((apba_flash_on ((apba_on s false).1) true p q).1).powered = false := by
  simp [apba_on, apba_flash_on]

/-- C1: both flash and erase, on every outcome, end with the controller out
of flash mode and powered exactly when its desired-on intent from before the
operation was set (an intent the operations never modify). -/
theorem c1_flash_erase_restore_power (s : Ctrl) (env : FlashEnv)
    (fw : Firmware) :
    ((apba_flash_partition s env (some fw)).ctrl.powered = s.desired_on ∧
     (apba_flash_partition s env (some fw)).ctrl.flashOn = false ∧
     (apba_flash_partition s env (some fw)).ctrl.desired_on = s.desired_on) ∧
    ((apba_erase_partition s env).ctrl.powered = s.desired_on ∧
     (apba_erase_partition s env).ctrl.flashOn = false ∧
     (apba_erase_partition s env).ctrl.desired_on = s.desired_on) := by
  have hprep := flash_prep_state s env.pinctrlActiveOk env.populateOk
  constructor
  · simp only [apba_flash_partition]
    rcases henv : env.mtdFound with _ | mtd
    · exact flashFinish_restore _ _ _ _ hprep.2 hprep.1
    · split_ifs with h0 h1
      · exact flashFinish_restore _ _ _ _ hprep.2 hprep.1
      · exact flashFinish_restore _ _ _ _ hprep.2 hprep.1
      · exact flashFinish_restore _ _ _ _ hprep.2 hprep.1
  · simp only [apba_erase_partition]
    rcases henv : env.mtdFound with _ | mtd
    · exact flashFinish_restore _ _ _ _ hprep.2 hprep.1
    · exact flashFinish_restore _ _ _ _ hprep.2 hprep.1

theorem countErase_append (l1 l2 : List Action) :
    countErase (l1 ++ l2) = countErase l1 + countErase l2 := by
  simp [countErase]

theorem countWrite_append (l1 l2 : List Action) :
    countWrite (l1 ++ l2) = countWrite l1 + countWrite l2 := by
  simp [countWrite]

theorem counts_apba_on (s : Ctrl) (b : Bool) :
    countErase (apba_on s b).2 = 0 ∧ countWrite (apba_on s b).2 = 0 := by
  cases b <;> cases hu : s.uartAttached <;>
    simp [apba_on, hu, countErase, countWrite, Action.isErase, Action.isWrite]

theorem counts_apba_flash_on (s : Ctrl) (b p q : Bool) :
    countErase (apba_flash_on s b p q).2 = 0 ∧
    countWrite (apba_flash_on s b p q).2 = 0 := by
  cases b <;>
    simp [apba_flash_on, countErase, countWrite,
      Action.isErase, Action.isWrite]

theorem countErase_nil : countErase [] = 0 := rfl

theorem countWrite_nil : countWrite [] = 0 := rfl

theorem counts_flashFinish (s : Ctrl) (e : Int) (pre : List Action) :
    countErase (flashFinish s e pre).actions = countErase pre ∧
    countWrite (flashFinish s e pre).actions = countWrite pre := by
  have h1 := counts_apba_flash_on s false false false
  have h2 := counts_apba_on (apba_flash_on s false false false).1 true
  simp only [flashFinish]
  cases hd : (apba_flash_on s false false false).1.desired_on <;>
    simp only [hd, if_true, if_false, Bool.false_eq_true] <;>
    constructor <;>
    simp only [countErase_append, countWrite_append, h1.1, h1.2, h2.1, h2.2,
      countErase_nil, countWrite_nil, Nat.add_zero]

theorem flashFinish_err (s : Ctrl) (e : Int) (pre : List Action) :
    (flashFinish s e pre).err = e := rfl

theorem firstDiffFrom_eq_none (a b : Nat → Nat) :
    ∀ (fuel i : Nat), (∀ j, i ≤ j → j < i + fuel → a j = b j) →
      firstDiffFrom a b i fuel = none := by
  intro fuel
  induction fuel with
  | zero => intro i _; rfl
  | succ f ih =>
      intro i h
      have hi : a i = b i := h i (Nat.le_refl i) (by omega)
      rw [firstDiffFrom, if_pos hi]
      exact ih (i+1) fun j h1 h2 => h j (by omega) (by omega)

theorem compare_match_zero (env : FlashEnv) (fw : Firmware)
    (hk : env.kmallocOk = true) (hr : 0 ≤ env.readRet)
    (hrl : env.readRetlen = PAGE_SIZE)
    (heq : ∀ i, i < PAGE_SIZE → env.partContent i = fw.data i) :
    (apba_compare_partition env fw).result = 0 := by
  have hnone : firstDiffFrom env.partContent fw.data 0 PAGE_SIZE = none :=
    firstDiffFrom_eq_none _ _ PAGE_SIZE 0 (fun j _ h2 => heq j (by omega))
  simp [apba_compare_partition, hk, hrl, memcmpN, hnone, Int.not_lt.mpr hr]

theorem counts_compare (env : FlashEnv) (fw : Firmware) :
    countErase (apba_compare_partition env fw).actions = 0 ∧
    countWrite (apba_compare_partition env fw).actions = 0 := by
  simp only [apba_compare_partition]
  split_ifs <;>
    simp [countErase, countWrite, Action.isErase, Action.isWrite]

/-- C2: when the partition resolves, the page buffer allocates, the one-page
read succeeds in full, and the page equals the first page of the candidate
image, flashPartition performs zero erase calls, zero write calls, and
returns 0. -/
theorem c2_flash_skip_on_match (s : Ctrl) (env : FlashEnv) (fw : Firmware)
    (mtd : MtdInfo) (hmtd : env.mtdFound = some mtd)
    (hk : env.kmallocOk = true) (hr : 0 ≤ env.readRet)
    (hrl : env.readRetlen = PAGE_SIZE)
    (heq : ∀ i, i < PAGE_SIZE → env.partContent i = fw.data i) :
    (apba_flash_partition s env (some fw)).err = 0 ∧
    countErase (apba_flash_partition s env (some fw)).actions = 0 ∧
    countWrite (apba_flash_partition s env (some fw)).actions = 0 := by
  have hc := compare_match_zero env fw hk hr hrl heq
  simp only [apba_flash_partition, hmtd]
  rw [if_pos hc]
  refine ⟨flashFinish_err _ _ _, ?_, ?_⟩
  · rw [(counts_flashFinish _ _ _).1, countErase_append, countErase_append,
      (counts_apba_on _ _).1, (counts_apba_flash_on _ _ _ _).1,
      (counts_compare _ _).1]
  · rw [(counts_flashFinish _ _ _).2, countWrite_append, countWrite_append,
      (counts_apba_on _ _).2, (counts_apba_flash_on _ _ _ _).2,
      (counts_compare _ _).2]

def c2ctrl : Ctrl :=
  { desired_on := true, powered := true, flashOn := false, mode := 0,
    flash_dev_populated := false, master_intf := 1, uartAttached := true,
    uartBaud := 115200, logFifo := [] }

def c2fw : Firmware := ⟨8192, fun _ => 7⟩

def c2env : FlashEnv :=
  { mtdFound := some ⟨65536⟩, kmallocOk := true, readRet := 0,
    readRetlen := PAGE_SIZE, partContent := fun _ => 7, eraseRet := 0,
    writeRet := 0, pinctrlActiveOk := true, populateOk := true }

/-- Concrete run of c2_flash_skip_on_match: an 8 KiB image whose first page
matches the partition content byte for byte. -/
theorem c2_flash_skip_on_match_witness :
    (apba_flash_partition c2ctrl c2env (some c2fw)).err = 0 ∧
    countErase (apba_flash_partition c2ctrl c2env (some c2fw)).actions = 0 ∧
    countWrite (apba_flash_partition c2ctrl c2env (some c2fw)).actions = 0 :=
  c2_flash_skip_on_match c2ctrl c2env c2fw ⟨65536⟩ rfl rfl (by decide) rfl
    (fun _ _ => rfl)

def c10fwA : Firmware := ⟨1, fun _ => 7⟩

def c10fwB : Firmware := ⟨1, fun i => if i = 0 then 7 else 9⟩

def c10env : FlashEnv :=
  { mtdFound := some ⟨65536⟩, kmallocOk := true, readRet := 0,
    readRetlen := PAGE_SIZE, partContent := fun _ => 7, eraseRet := 0,
    writeRet := 0, pinctrlActiveOk := true, populateOk := true }

/-- C10: the comparison outcome never depends on the declared image size
(it always runs over a full page); for the one-byte image c10fwA it examines
all 4096 bytes of fw->data, indexing far past the end of the image; and two
images agreeing on their single in-bounds byte can produce opposite skip
decisions, so the decision depends on out-of-bounds bytes. -/
theorem c10_compare_ignores_fw_size :
    (∀ (env : FlashEnv) (sz sz' : Nat) (d : Nat → Nat),
       apba_compare_partition env ⟨sz, d⟩
         = apba_compare_partition env ⟨sz', d⟩) ∧
    (c10fwA.size < PAGE_SIZE ∧
     (apba_compare_partition c10env c10fwA).fwReads = PAGE_SIZE ∧
     c10fwA.size < (apba_compare_partition c10env c10fwA).fwReads) ∧
    (c10fwA.data 0 = c10fwB.data 0 ∧
     (apba_compare_partition c10env c10fwA).result = 0 ∧
     (apba_compare_partition c10env c10fwB).result ≠ 0) := by
  have hnone : firstDiffFrom (fun _ => 7) (fun _ => 7) 0 PAGE_SIZE = none :=
    firstDiffFrom_eq_none _ _ PAGE_SIZE 0 (fun _ _ _ => rfl)
  have hreads : (apba_compare_partition c10env c10fwA).fwReads = PAGE_SIZE := by
    simp [apba_compare_partition, c10env, c10fwA, memcmpReads, hnone]
  refine ⟨fun env sz sz' d => rfl, ⟨by decide, hreads, ?_⟩, ⟨rfl, ?_, ?_⟩⟩
  · rw [hreads]; decide
  · simp [apba_compare_partition, c10env, c10fwA, memcmpN, hnone]
  · decide

/-! ### Message protocol engine (apba_handle_message) -/

/-- Little-endian decoding of a u16 from two wire bytes. -/
def le16 (b0 b1 : Nat) : Nat := b0 + 256 * b1

/-- Little-endian decoding of a u32 from four wire bytes. -/
def le32 (b0 b1 b2 b3 : Nat) : Nat :=
  b0 + 256 * b1 + 65536 * b2 + 16777216 * b3

/-- struct apba_ctrl_int_reason_resp: the 4-byte header (modelled from the
spec, see APBA_CTRL_MSG_HDR_SIZE) followed by a le16 reason. -/
def APBA_CTRL_INT_REASON_RESP_SIZE : Nat := APBA_CTRL_MSG_HDR_SIZE + 2

/-- apba_action_on_int_reason from src/apba.c; master_intf = 0 models the
falsy uint8_t master_intf guard. -/
def apba_action_on_int_reason (master_intf : Nat) (reason : Nat) :
    List Action :=
  if master_intf = 0 then []
  else if reason = APBA_INT_APBE_ON then
    [Action.slavePower master_intf true MB_CONTROL_SLAVE_MASK_APBE]
  else if reason = APBA_INT_APBE_RESET then
    [Action.slavePower master_intf false MB_CONTROL_SLAVE_MASK_APBE,
     Action.sleep APBE_RESET_DELAY,
     Action.slavePower master_intf true MB_CONTROL_SLAVE_MASK_APBE]
  else if reason = APBA_INT_APBE_CONNECTED then
    [Action.attachNotify 1]
  else if reason = APBA_INT_APBE_DISCONNECTED then
    [Action.slavePower master_intf false MB_CONTROL_SLAVE_MASK_APBE,
     Action.attachNotify 0]
  else []

/-- LOG_IND branch body of apba_handle_message: kfifo_len + msg->size -
APBA_LOG_SIZE overflow check, kfifo_out of at most MIN(of, APBA_MSG_SIZE_MAX)
oldest bytes (kfifo_out itself pops at most the current length), then
kfifo_in of the payload (kfifo_in inserts at most the free space). -/
def apba_log_append (msgSizeMax : Nat) (fifo : List Nat)
    (payload : List Nat) : List Nat :=
  let cur := fifo.length
  let ov : Int := (cur : Int) + payload.length - APBA_LOG_SIZE
  let evict := if 0 < ov then min (min ov.toNat msgSizeMax) cur else 0
  let fifo1 := fifo.drop evict
  fifo1 ++ payload.take (APBA_LOG_SIZE - fifo1.length)

/-- Result of apba_handle_message: the new controller state, the actions
performed, and the payload byte indices read (instrumentation recording
which offsets of the inbound buffer the C code dereferences). -/
structure HandleResult where
  ctrl : Ctrl
  actions : List Action
  reads : List Nat
deriving DecidableEq, Repr

/-- apba_handle_message from src/apba.c.  `msgSizeMax` stands for
APBA_MSG_SIZE_MAX, declared in apba.h which is not in src/ (modelled from
the spec as the protocol maximum message size, a parameter here).  `buf`
is the byte memory at `payload` and `len` the byte count passed in; reads at
indices at or beyond `len` are accesses beyond the provided buffer. -/
def apba_handle_message (msgSizeMax : Nat) (s : Ctrl) (buf : Nat → Nat)
    (len : Nat) : HandleResult :=
  if len < APBA_CTRL_MSG_HDR_SIZE then ⟨s, [], []⟩
  else
    let msgType := le16 (buf 0) (buf 1)
    let msgSize := le16 (buf 2) (buf 3)
    let hdrReads : List Nat := [0, 1, 2, 3]
    if msgType = APBA_CTRL_INT_REASON then
      if APBA_CTRL_INT_REASON_RESP_SIZE ≤ len then
        ⟨s, apba_action_on_int_reason s.master_intf (le16 (buf 4) (buf 5)),
         hdrReads ++ [4, 5]⟩
      else ⟨s, [], hdrReads⟩
    else if msgType = APBA_CTRL_PM_WAKE_ACK ∨
            msgType = APBA_CTRL_PM_SLEEP_ACK ∨
            msgType = APBA_CTRL_PM_SLEEP_IND then
      ⟨s, [Action.uartPmEvent msgType], hdrReads⟩
    else if msgType = APBA_CTRL_LOG_IND then
      let payload := (List.range msgSize).map fun i => buf (4 + i)
      ⟨{s with logFifo := apba_log_append msgSizeMax s.logFifo payload},
       [], hdrReads ++ (List.range msgSize).map fun i => 4 + i⟩
    else if msgType = APBA_CTRL_LOG_REQUEST then
      ⟨s, [Action.complete CompKind.log], hdrReads⟩
    else if msgType = APBA_CTRL_BAUD_ACK then
      let baud := le32 (buf 4) (buf 5) (buf 6) (buf 7)
      let accepted := buf 8
      if accepted ≠ 0 then
        ⟨{s with uartBaud := baud},
         [Action.uartUpdateBaud baud, Action.complete CompKind.baud],
         hdrReads ++ [4, 5, 6, 7, 8] ++ [4, 5, 6, 7]⟩
      else
        ⟨s, [Action.complete CompKind.baud], hdrReads ++ [4, 5, 6, 7, 8]⟩
    else if msgType = APBA_CTRL_MODE_REQUEST then
      ⟨s, [Action.complete CompKind.mode], hdrReads⟩
    else ⟨s, [], hdrReads⟩

/-- The message types apba_handle_message has a switch case for. -/
def knownMsgTypes : List Nat :=
  [APBA_CTRL_INT_REASON, APBA_CTRL_PM_WAKE_ACK, APBA_CTRL_PM_SLEEP_ACK,
   APBA_CTRL_PM_SLEEP_IND, APBA_CTRL_LOG_IND, APBA_CTRL_LOG_REQUEST,
   APBA_CTRL_BAUD_ACK, APBA_CTRL_MODE_REQUEST]

theorem apba_log_append_spec (msgSizeMax : Nat) (fifo payload : List Nat)
    (hcap : fifo.length ≤ APBA_LOG_SIZE)
    (hmax : msgSizeMax ≤ APBA_LOG_SIZE)
    (hsize : payload.length ≤ msgSizeMax) :
    apba_log_append msgSizeMax fifo payload
      = fifo.drop
          (if APBA_LOG_SIZE < fifo.length + payload.length then
             min (fifo.length + payload.length - APBA_LOG_SIZE) msgSizeMax
           else 0)
        ++ payload ∧
    (apba_log_append msgSizeMax fifo payload).length ≤ APBA_LOG_SIZE := by
  simp only [apba_log_append]
  by_cases h : APBA_LOG_SIZE < fifo.length + payload.length
  · have hov : (0 : Int)
        < (fifo.length : Int) + payload.length - APBA_LOG_SIZE := by
      omega
    have hev : min (min ((fifo.length : Int) + payload.length
          - APBA_LOG_SIZE).toNat msgSizeMax) fifo.length
        = fifo.length + payload.length - APBA_LOG_SIZE := by
      omega
    rw [if_pos hov, hev, if_pos h]
    have hmin : min (fifo.length + payload.length - APBA_LOG_SIZE) msgSizeMax
        = fifo.length + payload.length - APBA_LOG_SIZE := by omega
    rw [hmin]
    have hdlen : (fifo.drop
        (fifo.length + payload.length - APBA_LOG_SIZE)).length
        = APBA_LOG_SIZE - payload.length := by
      rw [List.length_drop]; omega
    rw [hdlen]
    have htake : payload.take (APBA_LOG_SIZE - (APBA_LOG_SIZE
        - payload.length)) = payload := by
      apply List.take_of_length_le
      omega
    rw [htake]
    constructor
    · rfl
    · rw [List.length_append, hdlen]
      omega
  · have hov : ¬ ((0 : Int)
        < (fifo.length : Int) + payload.length - APBA_LOG_SIZE) := by
      omega
    rw [if_neg hov, if_neg h]
    rw [List.drop_zero]
    have htake : payload.take (APBA_LOG_SIZE - fifo.length) = payload := by
      apply List.take_of_length_le
      omega
    rw [htake]
    refine ⟨rfl, ?_⟩
    rw [List.length_append]
    omega

/-- C3: an inbound LOG_IND whose payload size is bounded by the protocol
maximum message size evicts exactly min(current + size - 16384, max) oldest
bytes when that is positive and none otherwise, then appends the whole
payload, and the resulting buffered length never exceeds 16384.
APBA_MSG_SIZE_MAX itself lives in apba.h (not in src/); per the spec one
eviction step always makes the payload fit, so the parameter is bounded by
the capacity. -/
theorem c3_log_append_bounds (msgSizeMax : Nat) (s : Ctrl) (buf : Nat → Nat)
    (len : Nat)
    (hcap : s.logFifo.length ≤ APBA_LOG_SIZE)
    (hlen : APBA_CTRL_MSG_HDR_SIZE ≤ len)
    (htype : le16 (buf 0) (buf 1) = APBA_CTRL_LOG_IND)
    (hmax : msgSizeMax ≤ APBA_LOG_SIZE)
    (hsize : le16 (buf 2) (buf 3) ≤ msgSizeMax) :
    (apba_handle_message msgSizeMax s buf len).ctrl.logFifo
      = s.logFifo.drop
          (if APBA_LOG_SIZE < s.logFifo.length + le16 (buf 2) (buf 3) then
             min (s.logFifo.length + le16 (buf 2) (buf 3) - APBA_LOG_SIZE)
               msgSizeMax
           else 0)
        ++ (List.range (le16 (buf 2) (buf 3))).map (fun i => buf (4 + i)) ∧
    (apba_handle_message msgSizeMax s buf len).ctrl.logFifo.length
      ≤ APBA_LOG_SIZE := by
  have hnotshort : ¬ len < APBA_CTRL_MSG_HDR_SIZE := by omega
  have hplen : ((List.range (le16 (buf 2) (buf 3))).map
      (fun i => buf (4 + i))).length = le16 (buf 2) (buf 3) := by
    simp
  have hspec := apba_log_append_spec msgSizeMax s.logFifo
    ((List.range (le16 (buf 2) (buf 3))).map (fun i => buf (4 + i)))
    hcap hmax (by rw [hplen]; exact hsize)
  rw [hplen] at hspec
  simp only [apba_handle_message, hnotshort, htype, if_neg, if_pos,
    APBA_CTRL_LOG_IND, APBA_CTRL_INT_REASON, APBA_CTRL_PM_WAKE_ACK,
    APBA_CTRL_PM_SLEEP_ACK, APBA_CTRL_PM_SLEEP_IND, if_false]
  norm_num
  exact hspec

/-- C7: a buffer shorter than the 4-byte header, or a well-formed message of
unknown type, is discarded without state change and without any action (no
log append, no completion, no power or attach dispatch). -/
theorem c7_discard_short_unknown (msgSizeMax : Nat) (s : Ctrl)
    (buf buf2 : Nat → Nat) (len len2 : Nat)
    (hshort : len < APBA_CTRL_MSG_HDR_SIZE)
    (hlen2 : APBA_CTRL_MSG_HDR_SIZE ≤ len2)
    (hunknown : le16 (buf2 0) (buf2 1) ∉ knownMsgTypes) :
    apba_handle_message msgSizeMax s buf len = ⟨s, [], []⟩ ∧
    (apba_handle_message msgSizeMax s buf2 len2).ctrl = s ∧
    (apba_handle_message msgSizeMax s buf2 len2).actions = [] := by
  refine ⟨by simp [apba_handle_message, hshort], ?_⟩
  have hnotshort : ¬ len2 < APBA_CTRL_MSG_HDR_SIZE := by omega
  simp only [knownMsgTypes, List.mem_cons, List.not_mem_nil, or_false,
    not_or] at hunknown
  obtain ⟨h1, h2, h3, h4, h5, h6, h7, h8⟩ := hunknown
  simp [apba_handle_message, hnotshort, h1, h2, h3, h4, h5, h6, h7, h8]

def c7buf : Nat → Nat := fun _ => 0

def c7buf2 : Nat → Nat := fun _ => 77

def ctrl0 : Ctrl :=
  { desired_on := true, powered := true, flashOn := false, mode := 5,
    flash_dev_populated := false, master_intf := 1, uartAttached := true,
    uartBaud := 115200, logFifo := [10, 11, 12] }

/-- Concrete run of c7_discard_short_unknown: a 3-byte buffer and a 4-byte
message of type 19789, which is not a known type. -/
theorem c7_discard_short_unknown_witness :
    apba_handle_message 2048 ctrl0 c7buf 3 = ⟨ctrl0, [], []⟩ ∧
    (apba_handle_message 2048 ctrl0 c7buf2 4).ctrl = ctrl0 ∧
    (apba_handle_message 2048 ctrl0 c7buf2 4).actions = [] :=
  c7_discard_short_unknown 2048 ctrl0 c7buf c7buf2 3 4 (by decide) (by decide)
    (by decide)

/-- C8: with a registered (nonzero) master interface, APBE_RESET maps to
exactly power-off, a 250 ms delay, then power-on; a reason outside the known
set yields no action at all. -/
theorem c8_int_reason_dispatch (intf r : Nat) (hintf : intf ≠ 0)
    (hr : r ∉ [APBA_INT_APBE_ON, APBA_INT_APBE_RESET,
               APBA_INT_APBE_CONNECTED, APBA_INT_APBE_DISCONNECTED]) :
    apba_action_on_int_reason intf APBA_INT_APBE_RESET
      = [Action.slavePower intf false MB_CONTROL_SLAVE_MASK_APBE,
         Action.sleep APBE_RESET_DELAY,
         Action.slavePower intf true MB_CONTROL_SLAVE_MASK_APBE] ∧
    apba_action_on_int_reason intf r = [] := by
  simp only [List.mem_cons, List.not_mem_nil, or_false, not_or] at hr
  obtain ⟨h1, h2, h3, h4⟩ := hr
  constructor
  · simp [apba_action_on_int_reason, hintf,
      APBA_INT_APBE_ON, APBA_INT_APBE_RESET]
  · simp [apba_action_on_int_reason, hintf, h1, h2, h3, h4]

/-- Concrete run of c8_int_reason_dispatch with interface 1 and the unknown
reason code 0 (APBA_INT_REASON_NONE, which the switch does not handle). -/
theorem c8_int_reason_dispatch_witness :
    apba_action_on_int_reason 1 APBA_INT_APBE_RESET
      = [Action.slavePower 1 false MB_CONTROL_SLAVE_MASK_APBE,
         Action.sleep APBE_RESET_DELAY,
         Action.slavePower 1 true MB_CONTROL_SLAVE_MASK_APBE] ∧
    apba_action_on_int_reason 1 APBA_INT_REASON_NONE = [] :=
  c8_int_reason_dispatch 1 APBA_INT_REASON_NONE (by decide) (by decide)

def c9buf : Nat → Nat := fun i => if i = 0 then APBA_CTRL_BAUD_ACK else 0

/-- C9: on any BAUD_ACK message the handler dereferences payload offsets 4
through 8 (the le32 baud field and the accepted byte) without checking that
len is at least 9; in particular for the concrete header-only BAUD_ACK
buffer c9buf passed with len = 4, offset 8 — beyond the provided buffer — is
read. -/
theorem c9_baud_ack_reads_oob (msgSizeMax : Nat) (s : Ctrl) (buf : Nat → Nat)
    (len : Nat) (hlen : APBA_CTRL_MSG_HDR_SIZE ≤ len)
    (hba : le16 (buf 0) (buf 1) = APBA_CTRL_BAUD_ACK) :
    (∀ i ∈ [4, 5, 6, 7, 8],
       i ∈ (apba_handle_message msgSizeMax s buf len).reads) ∧
    (8 ∈ (apba_handle_message 2048 ctrl0 c9buf
            APBA_CTRL_MSG_HDR_SIZE).reads ∧
     APBA_CTRL_MSG_HDR_SIZE < 8) := by
  have hnotshort : ¬ len < APBA_CTRL_MSG_HDR_SIZE := by omega
  constructor
  · intro i hi
    simp only [apba_handle_message, hnotshort, hba, if_neg, if_pos,
      APBA_CTRL_BAUD_ACK, APBA_CTRL_INT_REASON, APBA_CTRL_PM_WAKE_ACK,
      APBA_CTRL_PM_SLEEP_ACK, APBA_CTRL_PM_SLEEP_IND, APBA_CTRL_LOG_IND,
      APBA_CTRL_LOG_REQUEST, if_false]
    norm_num
    by_cases hacc : buf 8 = 0 <;> simp [hacc] <;> fin_cases hi <;> simp
  · constructor
    · decide
    · decide

def c3buf : Nat → Nat := fun i =>
  if i = 0 then APBA_CTRL_LOG_IND
  else if i = 2 then 2
  else if i = 4 then 9
  else if i = 5 then 9
  else 0

/-- Concrete run of c3_log_append_bounds: a LOG_IND of payload size 2 into a
3-byte buffer, no eviction needed. -/
theorem c3_log_append_bounds_witness :
    (apba_handle_message 2048 ctrl0 c3buf 6).ctrl.logFifo
      = ctrl0.logFifo.drop
          (if APBA_LOG_SIZE
               < ctrl0.logFifo.length + le16 (c3buf 2) (c3buf 3) then
             min (ctrl0.logFifo.length + le16 (c3buf 2) (c3buf 3)
                   - APBA_LOG_SIZE) 2048
           else 0)
        ++ (List.range (le16 (c3buf 2) (c3buf 3))).map
            (fun i => c3buf (4 + i)) ∧
    (apba_handle_message 2048 ctrl0 c3buf 6).ctrl.logFifo.length
      ≤ APBA_LOG_SIZE :=
  c3_log_append_bounds 2048 ctrl0 c3buf 6 (by decide) (by decide) (by decide)
    (by decide) (by decide)

/-- Concrete run of c9_baud_ack_reads_oob at the header-only input itself. -/
theorem c9_baud_ack_reads_oob_witness :
    4 ∈ (apba_handle_message 2048 ctrl0 c9buf
           APBA_CTRL_MSG_HDR_SIZE).reads ∧
    8 ∈ (apba_handle_message 2048 ctrl0 c9buf
           APBA_CTRL_MSG_HDR_SIZE).reads ∧
    APBA_CTRL_MSG_HDR_SIZE < 8 := by
  have h := c9_baud_ack_reads_oob 2048 ctrl0 c9buf APBA_CTRL_MSG_HDR_SIZE
    (by decide) (by decide)
  exact ⟨h.1 4 (by decide), h.2.1, h.2.2⟩

/-! ### Outgoing requests with completion timeouts -/

/-- Collaborator outcomes for one outgoing request: whether
mods_uart_apba_send returned 0, and when (if ever) the matching completion
is signalled, in ms after the send. -/
structure ReqEnv where
  sendOk : Bool
  ackDelay : Option Nat
deriving DecidableEq, Repr

/-- wait_for_completion_timeout: true iff the completion is signalled within
the timeout. -/
def wait_for_completion_timeout (ackDelay : Option Nat)
    (timeoutMs : Nat) : Bool :=
  match ackDelay with
  | none => false
  | some t => decide (t ≤ timeoutMs)

/-- apba_mode_store from src/apba.c, after kstrtoul parsing: `val` is the
parsed value and `count` the sysfs write size.  Note that both the send
failure and the timeout paths return `count` unchanged. -/
def apba_mode_store (s : Ctrl) (env : ReqEnv) (val : Nat) (count : Nat) :
    Int × Ctrl × List Action :=
  if ¬ s.uartAttached then (0, s, [])
  else
    let send := [Action.uartSend APBA_CTRL_MODE_REQUEST [val % 256]]
    if ¬ env.sendOk then ((count : Int), s, send)
    else if ¬ wait_for_completion_timeout env.ackDelay
        APBA_MODE_REQ_TIMEOUT then
      ((count : Int), s, send)
    else ((count : Int), {s with mode := val % 256}, send)

/-- apba_baud_store from src/apba.c, after kstrtoul parsing. -/
def apba_baud_store (s : Ctrl) (env : ReqEnv) (val : Nat) (count : Nat) :
    Int × Ctrl × List Action :=
  if ¬ s.uartAttached then (-ENODEV, s, [])
  else
    let send := [Action.uartSend APBA_CTRL_BAUD_REQUEST
      [val % 4294967296]]
    if ¬ env.sendOk then (-EIO_errno, s, send)
    else if ¬ wait_for_completion_timeout env.ackDelay
        APBA_BAUD_REQ_TIMEOUT then
      (-EAGAIN, s,
       send ++ [Action.uartLockTx true, Action.uartLockTx false])
    else
      ((count : Int), s,
       send ++ [Action.uartLockTx true, Action.uartLockTx false])

/-- apba_log_show from src/apba.c: send a LOG_REQUEST, wait for the log
completion, then drain up to PAGE_SIZE - 1 bytes from the log fifo. -/
def apba_log_show (s : Ctrl) (env : ReqEnv) : Int × Ctrl × List Action :=
  let send := [Action.uartSend APBA_CTRL_LOG_REQUEST []]
  if ¬ env.sendOk then (0, s, send)
  else if ¬ wait_for_completion_timeout env.ackDelay
      APBA_LOG_REQ_TIMEOUT then
    (0, s, send)
  else
    let n := min s.logFifo.length (PAGE_SIZE - 1)
    ((n : Int), {s with logFifo := s.logFifo.drop n}, send)

def envTimeout : ReqEnv := ⟨true, none⟩

def envAck : ReqEnv := ⟨true, some 0⟩

/-- C4 counterexample: with no ack ever arriving (so the 1000 ms wait times
out), apba_mode_store returns the byte count 2 — exactly what the success
path returns — and not any negative timeout indication, so the caller
receives no timeout result. -/
theorem c4_mode_timeout_counterexample :
    wait_for_completion_timeout envTimeout.ackDelay
      APBA_MODE_REQ_TIMEOUT = false ∧
    (apba_mode_store ctrl0 envTimeout 3 2).1 = 2 ∧
    (apba_mode_store ctrl0 envAck 3 2).1 = 2 ∧
    ¬ (apba_mode_store ctrl0 envTimeout 3 2).1 < 0 := by
  refine ⟨rfl, rfl, rfl, by decide⟩

/-- C4 as amended: on a 1000 ms timeout the stored mode byte and the
transport baud (indeed the whole controller state) are unchanged for all
three request kinds, and the baud request returns the retryable timeout
error -EAGAIN; but the mode request returns the write count (a success
indication) and the log request returns 0 bytes, neither of which is a
timeout result. -/
theorem c4_timeout_state_unchanged (s : Ctrl) (env : ReqEnv)
    (val count : Nat) (hu : s.uartAttached = true) (hs : env.sendOk = true)
    (hto : wait_for_completion_timeout env.ackDelay 1000 = false) :
    ((apba_mode_store s env val count).1 = (count : Int) ∧
     (apba_mode_store s env val count).2.1 = s) ∧
    ((apba_baud_store s env val count).1 = -EAGAIN ∧
     (apba_baud_store s env val count).2.1 = s) ∧
    ((apba_log_show s env).1 = 0 ∧ (apba_log_show s env).2.1 = s) := by
  have hto1 : wait_for_completion_timeout env.ackDelay
      APBA_MODE_REQ_TIMEOUT = false := hto
  have hto2 : wait_for_completion_timeout env.ackDelay
      APBA_BAUD_REQ_TIMEOUT = false := hto
  have hto3 : wait_for_completion_timeout env.ackDelay
      APBA_LOG_REQ_TIMEOUT = false := hto
  refine ⟨⟨?_, ?_⟩, ⟨?_, ?_⟩, ⟨?_, ?_⟩⟩ <;>
    simp [apba_mode_store, apba_baud_store, apba_log_show, hu, hs,
      hto1, hto2, hto3]

/-- Concrete run of c4_timeout_state_unchanged. -/
theorem c4_timeout_state_unchanged_witness :
    ((apba_mode_store ctrl0 envTimeout 3 2).1 = (2 : Int) ∧
     (apba_mode_store ctrl0 envTimeout 3 2).2.1 = ctrl0) ∧
    ((apba_baud_store ctrl0 envTimeout 3 2).1 = -EAGAIN ∧
     (apba_baud_store ctrl0 envTimeout 3 2).2.1 = ctrl0) ∧
    ((apba_log_show ctrl0 envTimeout).1 = 0 ∧
     (apba_log_show ctrl0 envTimeout).2.1 = ctrl0) :=
  c4_timeout_state_unchanged ctrl0 envTimeout 3 2 rfl rfl rfl

/-! ### Enable / disable -/

/-- apba_disable from src/apba.c: guarded on desired_on; otherwise slave
power off, clear desired_on, mod_attach(0), clock stop, then apba_on off. -/
def apba_disable (s : Ctrl) : Ctrl × List Action :=
  if s.desired_on then
    let s1 : Ctrl := {s with desired_on := false}
    ((apba_on s1 false).1,
     [Action.slavePower s.master_intf false MB_CONTROL_SLAVE_MASK_APBE]
       ++ (if s.uartAttached then [Action.attachNotify 0] else [])
       ++ [Action.clkDisable]
       ++ (apba_on s1 false).2)
  else (s, [])

/-- C5: disable with the desired-on flag already clear is a complete no-op:
no action of any kind and an unchanged controller state, which also makes
disable idempotent. -/
theorem c5_disable_noop (s : Ctrl) (h : s.desired_on = false) :
    apba_disable s = (s, []) := by
  simp [apba_disable, h]

def ctrlOff : Ctrl :=
  { desired_on := false, powered := false, flashOn := false, mode := 0,
    flash_dev_populated := false, master_intf := 1, uartAttached := true,
    uartBaud := 115200, logFifo := [] }

/-- Concrete run of c5_disable_noop on an already-off controller. -/
theorem c5_disable_noop_witness : apba_disable ctrlOff = (ctrlOff, []) :=
  c5_disable_noop ctrlOff rfl

end Apba
